import Mathlib

/-
Verification development for the tokenring-ai/feedback package.

The package provides two browser-based review tools:
* `getFileFeedback` (tools/getFileFeedback.ts): presents file content in a
  local web page, awaits an accept/reject decision posted to `/result`,
  persists the content via the file-system service, and cleans up.
* `react-feedback` (tools/react-feedback.ts): same workflow for a bundled
  React component.

This file shallowly embeds the two `execute` functions as deterministic
interpreters over an environment describing the behaviour of the external
collaborators (temp directory creation, the content store, the browser
opener, the human decision, the clock), producing a result and a trace of
observable effects.  The HTML renderer (`genFileViewHTML`, `escapeHTML`)
and the rejected-file naming of both tools are embedded directly.
-/

/-! ## Timestamps

`getFileFeedback` formats `new Date()` with date-fns pattern
`yyyyMMdd-HHmmss`; `react-feedback` uses moment pattern `YYYYMMDD-HH:mm`;
the default preview file name uses `Date.toISOString()`.  A JS `Date` has
millisecond precision, so a date-time is modelled with fields down to
milliseconds; the formatters below are faithful for in-range components
(the only values a real `Date` produces), where each two-digit field is
zero-padded to exactly two digits and the year to four.
-/

def digitChar (d : Nat) : Char := Char.ofNat (48 + d)

def twoDigits (n : Nat) : List Char := [digitChar (n / 10), digitChar (n % 10)]

def threeDigits (n : Nat) : List Char :=
  [digitChar (n / 100), digitChar (n / 10 % 10), digitChar (n % 10)]

def fourDigits (n : Nat) : List Char :=
  [digitChar (n / 1000), digitChar (n / 100 % 10), digitChar (n / 10 % 10), digitChar (n % 10)]

structure DateTime where
  year : Nat
  month : Nat
  day : Nat
  hour : Nat
  minute : Nat
  second : Nat
  ms : Nat
  deriving DecidableEq, Repr

/-- The component ranges a real JS `Date` yields (year restricted to four
digits, which covers every contemporary clock reading). -/
def DateTime.Valid (t : DateTime) : Prop :=
  1000 ≤ t.year ∧ t.year ≤ 9999 ∧ 1 ≤ t.month ∧ t.month ≤ 12 ∧ 1 ≤ t.day ∧ t.day ≤ 31 ∧
    t.hour ≤ 23 ∧ t.minute ≤ 59 ∧ t.second ≤ 59 ∧ t.ms ≤ 999

instance (t : DateTime) : Decidable t.Valid := by
  unfold DateTime.Valid; infer_instance

/-- The second-granularity projection of a date-time (everything the
`yyyyMMdd-HHmmss` format can observe). -/
def DateTime.secKey (t : DateTime) : Nat × Nat × Nat × Nat × Nat × Nat :=
  (t.year, t.month, t.day, t.hour, t.minute, t.second)

/-- Models `format(new Date(), "yyyyMMdd-HHmmss")` (date-fns) from
getFileFeedback.ts, as a character list. -/
def fmtFileL (t : DateTime) : List Char :=
  fourDigits t.year ++ twoDigits t.month ++ twoDigits t.day ++ ['-'] ++
    twoDigits t.hour ++ twoDigits t.minute ++ twoDigits t.second

/-- Models `format(new Date(), "yyyyMMdd-HHmmss")` (date-fns). -/
def fmtFile (t : DateTime) : String := String.mk (fmtFileL t)

/-- Models `moment().format("YYYYMMDD-HH:mm")` from react-feedback.ts. -/
def fmtReact (t : DateTime) : String :=
  String.mk (fourDigits t.year ++ twoDigits t.month ++ twoDigits t.day ++ ['-'] ++
    twoDigits t.hour ++ [':'] ++ twoDigits t.minute)

/-- Models `new Date().toISOString()` from react-feedback.ts. -/
def isoFmt (t : DateTime) : String :=
  String.mk (fourDigits t.year ++ ['-'] ++ twoDigits t.month ++ ['-'] ++ twoDigits t.day ++
    ['T'] ++ twoDigits t.hour ++ [':'] ++ twoDigits t.minute ++ [':'] ++ twoDigits t.second ++
    ['.'] ++ threeDigits t.ms ++ ['Z'])

/-! ## Rejected-file naming

getFileFeedback.ts derives the rejection path with
`filePath.replace(/(\.[^.]+)$|$/, ".rejected" + ts + "$1")` (non-global
replace, so only the leftmost match is replaced).  The first alternative
`(\.[^.]+)$` matches at the last dot of the string provided at least one
character follows it (the tail after the last dot never contains a dot);
otherwise the second alternative matches the empty string at the end and
`$1` expands to the empty string.  `splitExtAux` finds that split: it
returns `some (base, ext)` where `ext` starts at the last dot that is
followed by a non-empty dot-free tail, preferring the rightmost candidate
exactly as the regex does. -/

def splitExtAux : List Char → Option (List Char × List Char)
  | [] => none
  | c :: rest =>
    match splitExtAux rest with
    | some (b, e) => some (c :: b, e)
    | none =>
      if c = '.' ∧ rest ≠ [] ∧ '.' ∉ rest then some ([], c :: rest) else none

def splitExtS (fp : String) : Option (String × String) :=
  (splitExtAux fp.data).map (fun p => (String.mk p.1, String.mk p.2))

/-- Models `filePath.replace(/(\.[^.]+)$|$/, ".rejected" + ts + "$1")`
from getFileFeedback.ts. -/
def rejectName (filePath ts : String) : String :=
  match splitExtAux filePath.data with
  | some (b, e) => String.mk b ++ ".rejected" ++ ts ++ String.mk e
  | none => filePath ++ ".rejected" ++ ts

/-- Replace the first `.` in the list by `repl` (no dot: unchanged),
modelling a non-global JS `replace(/\./, repl)`. -/
def replaceFirstDotL (repl : List Char) : List Char → List Char
  | [] => []
  | c :: rest => if c = '.' then repl ++ rest else c :: replaceFirstDotL repl rest

/-- Models `file.replace(/\./, ".rejected" + ts + ".")` from
react-feedback.ts: the replacement happens at the FIRST dot. -/
def rejectReact (file ts : String) : String :=
  String.mk (replaceFirstDotL (String.data (".rejected" ++ ts ++ ".")) file.data)

/-! ## String containment -/

/-- `beginsWith n h`: `n` is a prefix of `h`. -/
def beginsWith : List Char → List Char → Bool
  | [], _ => true
  | _ :: _, [] => false
  | a :: as, b :: bs => a == b && beginsWith as bs

/-- `containsSub n h`: `n` occurs contiguously inside `h`. -/
def containsSub (needle : List Char) : List Char → Bool
  | [] => beginsWith needle []
  | c :: rest => beginsWith needle (c :: rest) || containsSub needle rest

def containsStr (needle hay : String) : Bool := containsSub needle.data hay.data

/-! ## The renderer of getFileFeedback.ts -/

/-- Models `escapeHTML`'s per-character map: the five HTML-sensitive
characters become entities, everything else is kept. -/
def escapeChar (c : Char) : String :=
  if c = '&' then "&amp;"
  else if c = '<' then "&lt;"
  else if c = '>' then "&gt;"
  else if c = Char.ofNat 34 then "&quot;"
  else if c = Char.ofNat 39 then "&#39;"
  else String.singleton c

/-- Models `escapeHTML` from getFileFeedback.ts
(`str.replace(/[&<>"']/g, m => map[m])`). -/
def escapeHTML (s : String) : String := String.join (s.data.map escapeChar)

/-- The `<div class="markdown-body" ...>` wrapper of the markdown branch. -/
def mdDiv (rawMarkup : String) : String :=
  "<div class=\"markdown-body\" style=\"padding:10px; border:1px solid #ccc; min-height:50vh;\">" ++
    rawMarkup ++ "</div>"

/-- The `<iframe src="...">` of the text/html branch; a missing
`htmlContentPath` interpolates as the JS string "undefined". -/
def iframeDiv (htmlContentPath : Option String) : String :=
  "<iframe src=\"" ++ (match htmlContentPath with | some p => p | none => "undefined") ++
    "\" style=\"width:100%; height:80vh; border:1px solid #ccc;\"></iframe>"

/-- The `<pre ...>` wrapper of the json / plain-text branches. -/
def preDiv (inner : String) : String :=
  "<pre style=\"white-space: pre-wrap; word-wrap: break-word; border:1px solid #ccc; padding:10px; min-height:50vh;\">" ++
    inner ++ "</pre>"

/-- The template of getFileFeedback.ts's `genFileViewHTML` up to the
`${effectiveContentType}` interpolation. -/
def ffTplA : String := String.intercalate "\n" [
  "<!doctype html>",
  "<html>",
  "  <head>",
  "    <meta charset=\"utf-8\"/>",
  "    <title>File Content Review</title>",
  "    <style>",
  "      .markdown-body h1, .markdown-body h2, .markdown-body h3 \x7b margin-top: 1em; margin-bottom: 0.5em; \x7d",
  "      .markdown-body p \x7b margin-bottom: 0.5em; \x7d",
  "      .markdown-body ul, .markdown-body ol \x7b margin-bottom: 0.5em; padding-left: 2em; \x7d",
  "      .markdown-body code \x7b background-color: #f0f0f0; padding: 0.2em 0.4em; border-radius: 3px; \x7d",
  "      .markdown-body pre code \x7b display: block; padding: 0.5em; background-color: #f0f0f0; border-radius: 3px; \x7d",
  "    </style>",
  "    <style>",
  "      body\x7bmargin-top: 100px; font-family:sans-serif; padding: 10px;\x7d",
  "      #feedback-bar\x7bposition:fixed;top:0;left:0;right:0;display:flex;gap:8px;padding:8px;background:#eee;z-index:999; border-bottom: 1px solid #ccc; align-items: center;\x7d",
  "      #feedback-bar button\x7bpadding:8px 15px;border:0;border-radius:4px;cursor:pointer; font-size: 14px;\x7d",
  "      #feedback-bar #acceptBtn\x7bbackground:#77dd77;\x7d",
  "      #feedback-bar #rejectBtn\x7bbackground:#ff6961;\x7d",
  "      #feedback-bar textarea\x7bflex-grow:1; min-height: 50px; padding:6px; border-radius:4px; border: 1px solid #ccc; margin: 0 8px;\x7d",
  "      #content-display\x7bmargin-top:20px;\x7d",
  "    </style>",
  "  </head>",
  "  <body>",
  "    <div id=\"feedback-bar\">",
  "      <button type=\"button\" id=\"acceptBtn\">Accept</button>",
  "      <button type=\"button\" id=\"rejectBtn\">Reject</button>",
  "      <textarea id=\"commentBox\" placeholder=\"Enter your comments here...\"></textarea>",
  "    </div>",
  "    <div id=\"content-display\">",
  "      <h3>Reviewing Content (Type: "]

/-- The template piece between `${effectiveContentType}` and
`${displayContentHtml}`. -/
def ffTplB : String := ")</h3>\n      "

/-- The template of `genFileViewHTML` after the `${displayContentHtml}`
interpolation. -/
def ffTplC : String := String.intercalate "\n" [
  "",
  "    </div>",
  "    <script>",
  "      document.addEventListener(\x27DOMContentLoaded\x27, function() \x7b",
  "        const acceptBtn = document.getElementById(\x27acceptBtn\x27);",
  "        const rejectBtn = document.getElementById(\x27rejectBtn\x27);",
  "",
  "        const submitFeedback = (accepted) => (e) => \x7b",
  "         e.preventDefault();",
  "         const comment = document.getElementById(\x27commentBox\x27).value;",
  "         fetch(\x27/result\x27, \x7b",
  "           method: \x27POST\x27,",
  "           headers: \x7b \x27Content-Type\x27: \x27application/json\x27 \x7d,",
  "           body: JSON.stringify(\x7b accepted: accepted, comment: comment \x7d)",
  "         \x7d).then(response => \x7b",
  "            if(response.ok) \x7b",
  "              alert(\"Feedback submitted! You can close this window.\");",
  "              document.body.innerHTML = \"<h1>Feedback submitted. You can close this window.</h1>\";",
  "            \x7d else \x7b",
  "              alert(\"Failed to submit feedback.\");",
  "            \x7d",
  "         \x7d).catch(err => alert(\"Error submitting feedback: \" + err));",
  "        \x7d;",
  "",
  "        acceptBtn.addEventListener(\x27click\x27, submitFeedback(true));",
  "        rejectBtn.addEventListener(\x27click\x27, submitFeedback(false));",
  "      \x7d);",
  "    </script>",
  "  </body>",
  "</html>"]

/-- Models `genFileViewHTML` from getFileFeedback.ts.  `markedParse`
stands for the external `marked.parse` collaborator (used only by the
markdown branch). -/
def genFileViewHTML (markedParse : String → String) (contentString contentType : String)
    (htmlContentPath : Option String) : String :=
  let pair : String × String :=
    if contentType = "text/markdown" ∨ contentType = "text/x-markdown" then
      (contentType, mdDiv (markedParse contentString))
    else if contentType = "text/html" then
      (contentType, iframeDiv htmlContentPath)
    else if contentType = "application/json" then
      (contentType, preDiv (escapeHTML contentString))
    else
      ("text/plain", preDiv (escapeHTML contentString))
  ffTplA ++ pair.1 ++ ffTplB ++ pair.2 ++ ffTplC

/-! ## The page template of react-feedback.ts -/

/-- Models `genHTML` from react-feedback.ts (the `${bundlePath}`
interpolation is the function argument). -/
def reactGenHTML (bundlePath : String) : String :=
  String.intercalate "\n" [
  "<!doctype html>",
  "<html>",
  "  <head>",
  "    <meta charset=\"utf-8\"/>",
  "    <style>",
  "      body\x7bmargin-top: 6lh;font-family:sans-serif\x7d",
  "      #overlay\x7bfixed;0;0;0;flex;8px;8px;#eee;z-index:999\x7d",
  "      #overlay button\x7b6px 12px;0;border-radius:4px;pointer\x7d",
  "      #commentBox\x7b100%; min-height: 5lh; 6px;margin-top:8px\x7d",
  "      #commentSubmit\x7b#ffd37b;margin-top:8px\x7d",
  "    </style>",
  "  </head>",
  "  <body>",
  "    <div id=\"overlay\">",
  "      <button type=\"button\" id=\"accept\">Accept</button>",
  "      <button type=\"button\" id=\"reject\">Reject</button>",
  "      <textarea id=\"commentBox\" rows=\"5\" name=\"comment\" placeholder=\"Enter your comments here...\"></textarea>",
  "    </div>",
  "    <div id=\"root\"></div>",
  "",
  "    <script src=\"https://unpkg.com/react@18/umd/react.development.ts\"></script>",
  "    <script src=\"https://unpkg.com/react-dom@18/umd/react-dom.development.ts\"></script>",
  "    <script>window.JSX = \x7b \"jsx\": React.createElement, \"jsxs\": React.createElement\x7d;</script>",
  "    <script src=\"" ++ bundlePath ++ "\"></script>",
  "    <script>",
  "      var root = window.ReactDOM.createRoot(document.getElementById(\x27root\x27));",
  "      root.render(React.createElement(window.App.default));",
  "",
  "      // Handle form submission and button clicks",
  "      document.addEventListener(\x27DOMContentLoaded\x27, function() \x7b",
  "        const acceptBtn = document.getElementById(\x27accept\x27);",
  "        const rejectBtn = document.getElementById(\x27reject\x27);",
  "        ",
  "        const submit = (accepted) => (e) => \x7b",
  "         e.preventDefault();",
  "         const comment = document.getElementById(\x27commentBox\x27).value;",
  "         fetch(\x27/result\x27, \x7b",
  "           method: \x27POST\x27,",
  "           headers: \x7b \x27Content-Type\x27: \x27application/json\x27 \x7d,",
  "           body: JSON.stringify(\x7b accepted: accepted, comment: comment \x7d)",
  "         \x7d).then(() => alert(\"Submitted!\"));",
  "        \x7d;",
  "        ",
  "        // Handle accept button",
  "        acceptBtn.addEventListener(\x27click\x27, submit(true));",
  "        ",
  "        // Handle reject button",
  "        rejectBtn.addEventListener(\x27click\x27, submit(false))",
  "      \x7d);",
  "    </script>",
  "  </body>",
  "</html>"]

/-! ## Data model

The decision endpoint receives a parsed JSON body.  Only the fields the
code ever looks at are modelled: `accepted` (any JSON value, since the
handler never validates it), `comment`, and `status` (react-feedback's
`execute` compares `result.status === "accept"` even though its own page
posts `{accepted, comment}`).  `JsValue.undef` stands for an absent
field. -/

inductive JsValue where
  | bool (b : Bool)
  | null
  | undef
  | num (n : Int)
  | str (s : String)
  deriving DecidableEq, Repr

/-- JS truthiness of the modelled values. -/
def truthy : JsValue → Bool
  | .bool b => b
  | .null => false
  | .undef => false
  | .num n => if n = 0 then false else true
  | .str s => if s = "" then false else true

structure SubmitBody where
  accepted : JsValue := JsValue.undef
  comment : Option String := none
  status : Option String := none
  deriving DecidableEq, Repr

inductive FFStatus where
  | accepted
  | rejected
  deriving DecidableEq, Repr

/-- The result record returned by getFileFeedback's `execute`. -/
structure GetFileFeedbackResult where
  status : FFStatus
  comment : Option String
  filePath : Option String
  rejectedFilePath : Option String
  deriving DecidableEq, Repr

/-- Observable effects of a session, in order of occurrence. -/
inductive Event where
  | mkdtemp (dir : String)
  | writeTmpFile (path content : String)
  | bundle (entry outfile : String)
  | serverStart (dir : String)
  | infoLine (msg : String)
  | errorLine (msg : String)
  | openBrowser (url : String)
  | csWrite (path content : String)
  | rmWorkspace (dir : String)
  | serverStop
  deriving DecidableEq, Repr

def isCsWrite : Event → Bool
  | .csWrite _ _ => true
  | _ => false

/-! ## The one-shot decision latch

Both servers capture the resolver of a single promise and call it from the
`/result` handler.  Resolving an already-resolved JS promise is a no-op,
so the latch keeps its first value.  The handler responds 200 "ok"
unconditionally (before/independent of resolving). -/

/-- Models getFileFeedback's `/result` handler: destructures
`{accepted, comment}` from the parsed body, answers `200 "ok"`, resolves
the latch (first value wins). -/
def ffSubmitResult (latch : Option SubmitBody) (b : SubmitBody) :
    (Nat × String) × Option SubmitBody :=
  ((200, "ok"),
    match latch with
    | none => some ⟨b.accepted, b.comment, none⟩
    | some d => some d)

/-- Models react-feedback's `/result` handler: answers `ok`, resolves the
latch with the whole parsed body (first value wins). -/
def rfSubmitResult (latch : Option SubmitBody) (b : SubmitBody) :
    (Nat × String) × Option SubmitBody :=
  ((200, "ok"),
    match latch with
    | none => some b
    | some d => some d)

/-! ## getFileFeedback.ts `execute` -/

structure FFParams where
  filePath : Option String := none
  content : Option String := none
  contentType : String := "text/plain"

/-- Behaviour of the external collaborators during one session.  An
`Option String` error field of `some e` means the corresponding operation
throws `e`; `none` means it succeeds.  `body` is the first decision
submitted to `/result` (the value the latch resolves with is derived from
it), `now` the clock reading at rejection-naming time, `markedParse` the
external markdown transform. -/
structure Env where
  tmpDir : String
  mkdtempErr : Option String := none
  tmpWriteErr : Option String := none
  serverStartErr : Option String := none
  port : Nat
  openAvailable : Bool := true
  openErr : Option String := none
  body : SubmitBody
  persistErr : Option String := none
  rmErr : Option String := none
  now : DateTime
  markedParse : String → String

def userContentFileName : String := "user_content.html"

/-- Step 6 of getFileFeedback's `execute`: `fs.rm` wrapped in try/catch
(failure only logged via `errorLine`), then `stop()`, then the result. -/
def ffCleanup (env : Env) (tmp : String) (res : GetFileFeedbackResult) (evs : List Event) :
    Except String GetFileFeedbackResult × List Event :=
  let evs := evs ++ (match env.rmErr with
    | some _ => [Event.errorLine ("[feedback/getFileFeedback] Error cleaning up temporary directory " ++ tmp)]
    | none => [Event.rmWorkspace tmp])
  (Except.ok res, evs ++ [Event.serverStop])

/-- The `infoLine` the `/result` handler emits upon the first submission. -/
def ffReceivedMsg (b : SubmitBody) : String :=
  "[feedback/getFileFeedback] Feedback received: " ++
    (if truthy b.accepted then "Accepted" else "Rejected") ++
    (match b.comment with
     | some c => if c = "" then "" else " with comment: " ++ c
     | none => "")

/-- Step 5 of getFileFeedback's `execute`: the decision has resolved;
persist via the content store (uncaught on failure), then cleanup, then
build the result record. -/
def ffFinish (filePath content : String) (env : Env) (tmp : String) (evs : List Event) :
    Except String GetFileFeedbackResult × List Event :=
  let evs := evs ++ [Event.infoLine (ffReceivedMsg env.body)]
  match env.persistErr with
  | some e => (Except.error e, evs)
  | none =>
    if truthy env.body.accepted then
      ffCleanup env tmp ⟨FFStatus.accepted, env.body.comment, some filePath, none⟩
        (evs ++ [Event.csWrite filePath content,
          Event.infoLine ("[feedback/getFileFeedback] Feedback accepted. Content written to " ++ filePath)])
    else
      let rejectFile := rejectName filePath (fmtFile env.now)
      ffCleanup env tmp ⟨FFStatus.rejected, env.body.comment, none, some filePath⟩
        (evs ++ [Event.csWrite rejectFile content,
          Event.infoLine ("[feedback/getFileFeedback] Feedback rejected. Content written to " ++ rejectFile)])

/-- Shallow embedding of `execute` from getFileFeedback.ts.  The code is
straight-line `await`s with no try/finally: the first throwing operation
aborts the session with everything later (including cleanup) skipped;
only `fs.rm` is guarded by its own try/catch. -/
def ffExecute (p : FFParams) (env : Env) : Except String GetFileFeedbackResult × List Event :=
  if p.filePath.getD "" = "" ∨ p.content.getD "" = "" then
    (Except.error "[feedback/getFileFeedback] filePath and content are required parameters for getFileFeedback.", [])
  else
    let filePath := p.filePath.getD ""
    let content := p.content.getD ""
    match env.mkdtempErr with
    | some e => (Except.error e, [])
    | none =>
      let tmp := env.tmpDir
      match env.tmpWriteErr with
      | some e => (Except.error e, [Event.mkdtemp tmp])
      | none =>
        let evs := [Event.mkdtemp tmp] ++
          (if p.contentType = "text/html" then
            [Event.writeTmpFile (tmp ++ "/" ++ userContentFileName) content] else []) ++
          [Event.writeTmpFile (tmp ++ "/index.html")
            (genFileViewHTML env.markedParse content p.contentType
              (if p.contentType = "text/html" then some ("./" ++ userContentFileName) else none))]
        match env.serverStartErr with
        | some e => (Except.error e, evs)
        | none =>
          let url := "http://localhost:" ++ toString env.port ++ "/index.html"
          let evs := evs ++ [Event.serverStart tmp,
            Event.infoLine ("[feedback/getFileFeedback] File review server running. Please navigate to: " ++ url)]
          if env.openAvailable then
            match env.openErr with
            | some e => (Except.error e, evs)
            | none =>
              ffFinish filePath content env tmp (evs ++ [Event.openBrowser url,
                Event.infoLine ("[feedback/getFileFeedback] File review UI opened at: " ++ url)])
          else
            ffFinish filePath content env tmp (evs ++
              [Event.infoLine ("[feedback/getFileFeedback] File review UI available at: " ++ url ++ " (open command mocked/unavailable)")])

/-! ## react-feedback.ts `execute` -/

structure RFParams where
  code : Option String := none
  file : Option String := none

structure REnv where
  tmpDir : String
  mkdtempErr : Option String := none
  tmpWriteErr : Option String := none
  buildErr : Option String := none
  serverStartErr : Option String := none
  port : Nat
  openErr : Option String := none
  body : SubmitBody
  persistErr : Option String := none
  rmErr : Option String := none
  now : DateTime

/-- Shallow embedding of `execute` from react-feedback.ts.  Notable
faithful details: a missing `file` (JS `file == null`) is silently
defaulted; the accept test is `result.status === "accept"` on the raw
parsed body; `fs.rm` is NOT wrapped in try/catch, so an rm failure
propagates and replaces the result; `open(url)` is called
unconditionally. -/
def reactExecute (p : RFParams) (env : REnv) : Except String SubmitBody × List Event :=
  if p.code.getD "" = "" then
    (Except.error "[feedback/react-feedback] code is required parameter for react-feedback.", [])
  else
    let code := p.code.getD ""
    let file := match p.file with
      | none => "React-Component-Preview-" ++ isoFmt env.now ++ ".tsx"
      | some f => f
    match env.mkdtempErr with
    | some e => (Except.error e, [])
    | none =>
      let tmp := env.tmpDir
      let jsxPath := tmp ++ "/" ++ file
      match env.tmpWriteErr with
      | some e => (Except.error e, [Event.mkdtemp tmp])
      | none =>
        let evs := [Event.mkdtemp tmp, Event.writeTmpFile jsxPath code]
        let bundlePath := tmp ++ "/bundle.ts"
        match env.buildErr with
        | some e => (Except.error e, evs)
        | none =>
          let evs := evs ++ [Event.bundle jsxPath bundlePath,
            Event.writeTmpFile (tmp ++ "/index.html") (reactGenHTML "./bundle.ts")]
          match env.serverStartErr with
          | some e => (Except.error e, evs)
          | none =>
            let url := "http://localhost:" ++ toString env.port ++ "/index.html"
            let evs := evs ++ [Event.serverStart tmp,
              Event.infoLine ("[feedback/react-feedback] Preview running on " ++ url)]
            match env.openErr with
            | some e => (Except.error e, evs)
            | none =>
              let evs := evs ++ [Event.openBrowser url]
              match env.persistErr with
              | some e => (Except.error e, evs)
              | none =>
                let evs := evs ++
                  (if env.body.status = some "accept" then [Event.csWrite file code]
                   else [Event.csWrite (rejectReact file (fmtReact env.now)) code])
                match env.rmErr with
                | some e => (Except.error e, evs)
                | none =>
                  (Except.ok env.body, evs ++ [Event.rmWorkspace tmp, Event.serverStop])

/-- A getFileFeedback environment in which every collaborator succeeds
and `open` is available. -/
def mkEnv (tmp : String) (port : Nat) (b : SubmitBody) (now : DateTime)
    (mp : String → String) : Env :=
  { tmpDir := tmp, port := port, body := b, now := now, markedParse := mp }

/-- A react-feedback environment in which every collaborator succeeds. -/
def mkREnv (tmp : String) (port : Nat) (b : SubmitBody) (now : DateTime) : REnv :=
  { tmpDir := tmp, port := port, body := b, now := now }

/-! ## Helper lemmas -/

theorem data_mk (l : List Char) : (String.mk l).data = l := rfl

theorem str_data_append (a b : String) : (a ++ b).data = a.data ++ b.data := by
  cases a; cases b; rfl

theorem beginsWith_self (n q : List Char) : beginsWith n (n ++ q) = true := by
  induction n with
  | nil => rfl
  | cons c cs ih => simp [beginsWith, ih]

theorem containsSub_of_begins {n h : List Char} (hb : beginsWith n h = true) :
    containsSub n h = true := by
  cases h with
  | nil => simpa [containsSub] using hb
  | cons c rest => simp [containsSub, hb]

theorem containsSub_cons {n rest : List Char} (c : Char) (hc : containsSub n rest = true) :
    containsSub n (c :: rest) = true := by
  simp [containsSub, hc]

theorem containsSub_mid (n p q : List Char) : containsSub n (p ++ (n ++ q)) = true := by
  induction p with
  | nil => simpa using containsSub_of_begins (beginsWith_self n q)
  | cons c cs ih => simpa using containsSub_cons c ih

theorem containsStr_mid (n a b : String) : containsStr n (a ++ n ++ b) = true := by
  unfold containsStr
  have h : (a ++ n ++ b).data = a.data ++ (n.data ++ b.data) := by
    rw [str_data_append, str_data_append, List.append_assoc]
  rw [h]
  exact containsSub_mid n.data a.data b.data

theorem digitChar_inj : ∀ a < 10, ∀ b < 10, digitChar a = digitChar b → a = b := by decide

theorem twoDigits_inj {a b : Nat} (ha : a ≤ 99) (hb : b ≤ 99)
    (h : twoDigits a = twoDigits b) : a = b := by
  simp only [twoDigits, List.cons.injEq, and_true] at h
  obtain ⟨h1, h2⟩ := h
  have e1 := digitChar_inj (a / 10) (by omega) (b / 10) (by omega) h1
  have e2 := digitChar_inj (a % 10) (by omega) (b % 10) (by omega) h2
  omega

theorem fourDigits_inj {a b : Nat} (ha : a ≤ 9999) (hb : b ≤ 9999)
    (h : fourDigits a = fourDigits b) : a = b := by
  simp only [fourDigits, List.cons.injEq, and_true] at h
  obtain ⟨h1, h2, h3, h4⟩ := h
  have e1 := digitChar_inj (a / 1000) (by omega) (b / 1000) (by omega) h1
  have e2 := digitChar_inj (a / 100 % 10) (by omega) (b / 100 % 10) (by omega) h2
  have e3 := digitChar_inj (a / 10 % 10) (by omega) (b / 10 % 10) (by omega) h3
  have e4 := digitChar_inj (a % 10) (by omega) (b % 10) (by omega) h4
  omega

theorem fmtFileL_length (t : DateTime) : (fmtFileL t).length = 15 := by
  simp [fmtFileL, fourDigits, twoDigits]

theorem fmtFileL_inj {t1 t2 : DateTime} (h1 : t1.Valid) (h2 : t2.Valid)
    (h : fmtFileL t1 = fmtFileL t2) : t1.secKey = t2.secKey := by
  obtain ⟨hy1, hy1b, hmo1, hmo1b, hd1, hd1b, hh1, hmi1, hs1, _⟩ := h1
  obtain ⟨hy2, hy2b, hmo2, hmo2b, hd2, hd2b, hh2, hmi2, hs2, _⟩ := h2
  simp only [fmtFileL, List.append_assoc] at h
  obtain ⟨hy, h⟩ := List.append_inj h (by simp [fourDigits])
  obtain ⟨hmo, h⟩ := List.append_inj h (by simp [twoDigits])
  obtain ⟨hd, h⟩ := List.append_inj h (by simp [twoDigits])
  obtain ⟨_, h⟩ := List.append_inj h (by simp)
  obtain ⟨hh, h⟩ := List.append_inj h (by simp [twoDigits])
  obtain ⟨hmi, hs⟩ := List.append_inj h (by simp [twoDigits])
  have ey := fourDigits_inj (by omega) (by omega) hy
  have emo := twoDigits_inj (by omega) (by omega) hmo
  have ed := twoDigits_inj (by omega) (by omega) hd
  have eh := twoDigits_inj (by omega) (by omega) hh
  have emi := twoDigits_inj (by omega) (by omega) hmi
  have es := twoDigits_inj (by omega) (by omega) hs
  simp [DateTime.secKey, ey, emo, ed, eh, emi, es]

theorem splitExtAux_append : ∀ {l b e : List Char}, splitExtAux l = some (b, e) → b ++ e = l := by
  intro l
  induction l with
  | nil => intro b e h; simp [splitExtAux] at h
  | cons c rest ih =>
    intro b e h
    cases hrec : splitExtAux rest with
    | some pair =>
      obtain ⟨b', e'⟩ := pair
      have hred : splitExtAux (c :: rest) = some (c :: b', e') := by
        simp [splitExtAux, hrec]
      rw [hred] at h
      simp only [Option.some.injEq, Prod.mk.injEq] at h
      obtain ⟨hb, he⟩ := h
      rw [← hb, ← he]
      show c :: (b' ++ e') = c :: rest
      rw [ih hrec]
    | none =>
      by_cases hcond : c = '.' ∧ rest ≠ [] ∧ '.' ∉ rest
      · have hred : splitExtAux (c :: rest) = some ([], c :: rest) := by
          simp only [splitExtAux, hrec]
          rw [if_pos hcond]
        rw [hred] at h
        simp only [Option.some.injEq, Prod.mk.injEq] at h
        obtain ⟨hb, he⟩ := h
        rw [← hb, ← he]
        rfl
      · have hred : splitExtAux (c :: rest) = none := by
          simp only [splitExtAux, hrec]
          rw [if_neg hcond]
        rw [hred] at h
        exact absurd h (by simp)

theorem rejectName_eq {fp b e : String} (ts : String) (h : splitExtS fp = some (b, e)) :
    rejectName fp ts = b ++ ".rejected" ++ ts ++ e := by
  cases hsa : splitExtAux fp.data with
  | none =>
    exfalso
    unfold splitExtS at h
    rw [hsa] at h
    simp at h
  | some pair =>
    obtain ⟨bl, el⟩ := pair
    unfold splitExtS at h
    rw [hsa] at h
    simp only [Option.map, Option.some.injEq, Prod.mk.injEq] at h
    obtain ⟨hb, he⟩ := h
    subst hb
    subst he
    simp [rejectName, hsa]

theorem rejectName_length (fp ts : String) :
    (rejectName fp ts).length = fp.length + 9 + ts.length := by
  have h9 : (".rejected" : String).length = 9 := rfl
  have hfp : fp.length = fp.data.length := rfl
  cases hsa : splitExtAux fp.data with
  | none =>
    simp only [rejectName, hsa, String.length_append]
    omega
  | some pair =>
    obtain ⟨bl, el⟩ := pair
    have hlen : bl.length + el.length = fp.data.length := by
      have h := congrArg List.length (splitExtAux_append hsa)
      simpa using h
    have hb : (String.mk bl).length = bl.length := rfl
    have he : (String.mk el).length = el.length := rfl
    simp only [rejectName, hsa, String.length_append]
    omega

theorem rejectName_ne (fp ts : String) : rejectName fp ts ≠ fp := by
  intro h
  have hl := congrArg String.length h
  rw [rejectName_length] at hl
  omega

/-- C4: once the decision latch already holds a first decision `d`, a second
submission `b` to the `/result` endpoint of either tool still receives the
`200 "ok"` success response and leaves the latch unchanged at `d`: only the
first resolution is observed and the handler never throws. -/
theorem c4_second_submission_noop (d b : SubmitBody) :
    ffSubmitResult (some d) b = ((200, "ok"), some d) ∧
    rfSubmitResult (some d) b = ((200, "ok"), some d) :=
  ⟨rfl, rfl⟩

/-- C8 (amended): in getFileFeedback a missing or empty `filePath` or
`content` makes `execute` throw immediately with an empty effect trace (no
workspace created, no server started); in react-feedback a missing or empty
`code` does the same — but a missing target path (`file`) is NOT rejected:
the session proceeds, creating the workspace, with a silently generated
default file name. -/
theorem c8_validation (p : FFParams) (env : Env) (q : RFParams) (renv : REnv)
    (hff : p.filePath.getD "" = "" ∨ p.content.getD "" = "")
    (hrf : q.code.getD "" = "") :
    ffExecute p env = (Except.error "[feedback/getFileFeedback] filePath and content are required parameters for getFileFeedback.", []) ∧
    reactExecute q renv = (Except.error "[feedback/react-feedback] code is required parameter for react-feedback.", []) ∧
    (∀ (c tmp : String) (port : Nat) (b : SubmitBody) (now : DateTime), c ≠ "" →
      Event.mkdtemp tmp ∈ (reactExecute ⟨some c, none⟩ (mkREnv tmp port b now)).2) := by
  refine ⟨?_, ?_, ?_⟩
  · unfold ffExecute
    rw [if_pos hff]
  · unfold reactExecute
    rw [if_pos hrf]
  · intro c tmp port b now hc
    simp only [reactExecute, mkREnv, Option.getD]
    rw [if_neg hc]
    by_cases hst : b.status = some "accept" <;> simp [hst]

/-- C8 counterexample: the claim "artifact or target path missing or empty
implies execute throws before any resource is acquired" is false for
react-feedback: with `code = "x"` and `file` missing, the session runs to
completion, and the temp workspace is created and the server started. -/
theorem c8_react_missing_file_defaults :
    (reactExecute ⟨some "x", none⟩
        (mkREnv "/tmp/rf" 4001 ⟨JsValue.bool false, none, none⟩ ⟨2026, 1, 2, 3, 4, 5, 0⟩)).1 =
      Except.ok ⟨JsValue.bool false, none, none⟩ ∧
    Event.mkdtemp "/tmp/rf" ∈ (reactExecute ⟨some "x", none⟩
        (mkREnv "/tmp/rf" 4001 ⟨JsValue.bool false, none, none⟩ ⟨2026, 1, 2, 3, 4, 5, 0⟩)).2 ∧
    Event.serverStart "/tmp/rf" ∈ (reactExecute ⟨some "x", none⟩
        (mkREnv "/tmp/rf" 4001 ⟨JsValue.bool false, none, none⟩ ⟨2026, 1, 2, 3, 4, 5, 0⟩)).2 := by
  refine ⟨rfl, by decide, by decide⟩

/-- C9: on a rejected file review the result reports `rejectedFilePath`
equal to the originally requested `filePath` — not the derived
`.rejected<timestamp>` path the artifact was actually written to, which
provably differs — and `filePath` is undefined; on acceptance
`rejectedFilePath` is undefined. -/
theorem c9_result_paths (fp c ct tmp : String) (port : Nat) (b : SubmitBody)
    (now : DateTime) (mp : String → String) (hfp : fp ≠ "") (hc : c ≠ "") :
    (truthy b.accepted = false →
      (ffExecute ⟨some fp, some c, ct⟩ (mkEnv tmp port b now mp)).1 =
        Except.ok ⟨FFStatus.rejected, b.comment, none, some fp⟩ ∧
      (ffExecute ⟨some fp, some c, ct⟩ (mkEnv tmp port b now mp)).2.filter isCsWrite =
        [Event.csWrite (rejectName fp (fmtFile now)) c] ∧
      rejectName fp (fmtFile now) ≠ fp) ∧
    (truthy b.accepted = true →
      (ffExecute ⟨some fp, some c, ct⟩ (mkEnv tmp port b now mp)).1 =
        Except.ok ⟨FFStatus.accepted, b.comment, some fp, none⟩) := by
  constructor
  · intro hacc
    refine ⟨?_, ?_, rejectName_ne fp (fmtFile now)⟩ <;>
    · simp only [ffExecute, mkEnv, Option.getD]
      rw [if_neg (by simp [hfp, hc])]
      by_cases hct : ct = "text/html" <;>
        simp [ffFinish, ffCleanup, hct, hacc, isCsWrite, List.filter]
  · intro hacc
    simp only [ffExecute, mkEnv, Option.getD]
    rw [if_neg (by simp [hfp, hc])]
    by_cases hct : ct = "text/html" <;>
      simp [ffFinish, ffCleanup, hct, hacc]

/-- C10: the `/result` handlers of both tools answer `200 "ok"` and resolve
the latch for ANY parsed JSON body, with no validation that `accepted` is a
boolean (it is stored as an arbitrary JS value); a body whose `accepted` is
missing, null, or otherwise falsy resolves the session as rejected. -/
theorem c10_endpoint_no_validation (latch : Option SubmitBody) (b : SubmitBody)
    (tmp : String) (port : Nat) (now : DateTime) (mp : String → String) :
    (ffSubmitResult latch b).1 = (200, "ok") ∧
    (rfSubmitResult latch b).1 = (200, "ok") ∧
    (ffSubmitResult none b).2 = some ⟨b.accepted, b.comment, none⟩ ∧
    (truthy b.accepted = false →
      (ffExecute ⟨some "out.txt", some "hello", "text/plain"⟩ (mkEnv tmp port b now mp)).1 =
        Except.ok ⟨FFStatus.rejected, b.comment, none, some "out.txt"⟩) := by
  refine ⟨rfl, rfl, rfl, ?_⟩
  intro hacc
  simp only [ffExecute, mkEnv, Option.getD]
  simp [ffFinish, ffCleanup, hacc]

/-- C1 (code evaluated at the failing input): in getFileFeedback, when the
first decision submitted has a truthy `accepted`, the artifact is persisted
via exactly one content-store write to `targetPath` and the session result
is `status = accepted`, `filePath = targetPath`.  In react-feedback the same
accept submission (`{accepted: true}`, the shape its own page posts) is
routed to the REJECTED-path write and the returned body carries no accept
status, because `execute` checks `result.status === "accept"` on a resolved
body that never has a `status` field. -/
theorem c1_accept_roundtrip (fp c ct tmp : String) (port : Nat) (b : SubmitBody)
    (now : DateTime) (mp : String → String)
    (hfp : fp ≠ "") (hc : c ≠ "") (hacc : truthy b.accepted = true) :
    ((ffExecute ⟨some fp, some c, ct⟩ (mkEnv tmp port b now mp)).1 =
        Except.ok ⟨FFStatus.accepted, b.comment, some fp, none⟩ ∧
      (ffExecute ⟨some fp, some c, ct⟩ (mkEnv tmp port b now mp)).2.filter isCsWrite =
        [Event.csWrite fp c]) ∧
    (reactExecute ⟨some "hello", some "out.tsx"⟩
        (mkREnv "/tmp/rf" 4001 ⟨JsValue.bool true, none, none⟩ ⟨2026, 1, 2, 3, 4, 5, 0⟩)).2.filter
        isCsWrite = [Event.csWrite "out.rejected20260102-03:04.tsx" "hello"] ∧
    (reactExecute ⟨some "hello", some "out.tsx"⟩
        (mkREnv "/tmp/rf" 4001 ⟨JsValue.bool true, none, none⟩ ⟨2026, 1, 2, 3, 4, 5, 0⟩)).1 =
      Except.ok ⟨JsValue.bool true, none, none⟩ := by
  refine ⟨?_, by decide, rfl⟩
  constructor <;>
  · simp only [ffExecute, mkEnv, Option.getD]
    rw [if_neg (by simp [hfp, hc])]
    by_cases hct : ct = "text/html" <;>
      simp [ffFinish, ffCleanup, hct, hacc, isCsWrite, List.filter]

/-- C3 counterexample: when the content-store write throws after the
decision was received, getFileFeedback re-raises the error WITHOUT removing
the workspace and WITHOUT stopping the server: the trace contains `mkdtemp`
and `serverStart` but no `rmWorkspace`, no `serverStop`, and no
cleanup-error log.  Likewise, a bundler failure in react-feedback
re-raises the error with the workspace created but never removed and the
server never stopped. -/
theorem c3_persist_failure_skips_cleanup :
    ((ffExecute ⟨some "out.txt", some "hello", "text/plain"⟩
        { mkEnv "/tmp/ff" 4000 ⟨JsValue.bool true, none, none⟩ ⟨2026, 1, 2, 3, 4, 5, 0⟩ id with
            persistErr := some "disk full" }).1 = Except.error "disk full" ∧
    Event.mkdtemp "/tmp/ff" ∈ (ffExecute ⟨some "out.txt", some "hello", "text/plain"⟩
        { mkEnv "/tmp/ff" 4000 ⟨JsValue.bool true, none, none⟩ ⟨2026, 1, 2, 3, 4, 5, 0⟩ id with
            persistErr := some "disk full" }).2 ∧
    Event.serverStart "/tmp/ff" ∈ (ffExecute ⟨some "out.txt", some "hello", "text/plain"⟩
        { mkEnv "/tmp/ff" 4000 ⟨JsValue.bool true, none, none⟩ ⟨2026, 1, 2, 3, 4, 5, 0⟩ id with
            persistErr := some "disk full" }).2 ∧
    Event.rmWorkspace "/tmp/ff" ∉ (ffExecute ⟨some "out.txt", some "hello", "text/plain"⟩
        { mkEnv "/tmp/ff" 4000 ⟨JsValue.bool true, none, none⟩ ⟨2026, 1, 2, 3, 4, 5, 0⟩ id with
            persistErr := some "disk full" }).2 ∧
    Event.serverStop ∉ (ffExecute ⟨some "out.txt", some "hello", "text/plain"⟩
        { mkEnv "/tmp/ff" 4000 ⟨JsValue.bool true, none, none⟩ ⟨2026, 1, 2, 3, 4, 5, 0⟩ id with
            persistErr := some "disk full" }).2 ∧
    Event.errorLine "[feedback/getFileFeedback] Error cleaning up temporary directory /tmp/ff" ∉
      (ffExecute ⟨some "out.txt", some "hello", "text/plain"⟩
        { mkEnv "/tmp/ff" 4000 ⟨JsValue.bool true, none, none⟩ ⟨2026, 1, 2, 3, 4, 5, 0⟩ id with
            persistErr := some "disk full" }).2) ∧
    ((reactExecute ⟨some "hello", some "out.tsx"⟩
        { mkREnv "/tmp/rf" 4001 ⟨JsValue.bool true, none, none⟩ ⟨2026, 1, 2, 3, 4, 5, 0⟩ with
            buildErr := some "esbuild failed" }).1 = Except.error "esbuild failed" ∧
    Event.mkdtemp "/tmp/rf" ∈ (reactExecute ⟨some "hello", some "out.tsx"⟩
        { mkREnv "/tmp/rf" 4001 ⟨JsValue.bool true, none, none⟩ ⟨2026, 1, 2, 3, 4, 5, 0⟩ with
            buildErr := some "esbuild failed" }).2 ∧
    Event.rmWorkspace "/tmp/rf" ∉ (reactExecute ⟨some "hello", some "out.tsx"⟩
        { mkREnv "/tmp/rf" 4001 ⟨JsValue.bool true, none, none⟩ ⟨2026, 1, 2, 3, 4, 5, 0⟩ with
            buildErr := some "esbuild failed" }).2 ∧
    Event.serverStop ∉ (reactExecute ⟨some "hello", some "out.tsx"⟩
        { mkREnv "/tmp/rf" 4001 ⟨JsValue.bool true, none, none⟩ ⟨2026, 1, 2, 3, 4, 5, 0⟩ with
            buildErr := some "esbuild failed" }).2) := by
  refine ⟨⟨rfl, by decide, by decide, by decide, by decide, by decide⟩,
    rfl, by decide, by decide, by decide⟩

/-- C3 (amended): in BOTH tools, workspace removal and server stop run
before the result is returned on every successfully completing session;
but when any step after workspace creation throws — persistence, server
start, or browser open in either tool, and the bundler in the component
variant — the error propagates with no workspace release and no server
stop: both execute functions are straight-line awaits with no
try/finally. -/
theorem c3_cleanup_policy (fp c ct tmp e : String) (port : Nat) (b : SubmitBody)
    (now : DateTime) (mp : String → String) (hfp : fp ≠ "") (hc : c ≠ "") :
    (Event.rmWorkspace tmp ∈ (ffExecute ⟨some fp, some c, ct⟩ (mkEnv tmp port b now mp)).2 ∧
     Event.serverStop ∈ (ffExecute ⟨some fp, some c, ct⟩ (mkEnv tmp port b now mp)).2 ∧
     (∃ r, (ffExecute ⟨some fp, some c, ct⟩ (mkEnv tmp port b now mp)).1 = Except.ok r)) ∧
    ((ffExecute ⟨some fp, some c, ct⟩
        { mkEnv tmp port b now mp with persistErr := some e }).1 = Except.error e ∧
     Event.rmWorkspace tmp ∉ (ffExecute ⟨some fp, some c, ct⟩
        { mkEnv tmp port b now mp with persistErr := some e }).2 ∧
     Event.serverStop ∉ (ffExecute ⟨some fp, some c, ct⟩
        { mkEnv tmp port b now mp with persistErr := some e }).2) ∧
    ((ffExecute ⟨some fp, some c, ct⟩
        { mkEnv tmp port b now mp with serverStartErr := some e }).1 = Except.error e ∧
     Event.rmWorkspace tmp ∉ (ffExecute ⟨some fp, some c, ct⟩
        { mkEnv tmp port b now mp with serverStartErr := some e }).2 ∧
     Event.serverStop ∉ (ffExecute ⟨some fp, some c, ct⟩
        { mkEnv tmp port b now mp with serverStartErr := some e }).2) ∧
    ((ffExecute ⟨some fp, some c, ct⟩
        { mkEnv tmp port b now mp with openErr := some e }).1 = Except.error e ∧
     Event.rmWorkspace tmp ∉ (ffExecute ⟨some fp, some c, ct⟩
        { mkEnv tmp port b now mp with openErr := some e }).2 ∧
     Event.serverStop ∉ (ffExecute ⟨some fp, some c, ct⟩
        { mkEnv tmp port b now mp with openErr := some e }).2) ∧
    (Event.rmWorkspace "/tmp/rf" ∈
      (reactExecute ⟨some "hello", some "out.tsx"⟩ (mkREnv "/tmp/rf" 4001 b now)).2 ∧
     Event.serverStop ∈
      (reactExecute ⟨some "hello", some "out.tsx"⟩ (mkREnv "/tmp/rf" 4001 b now)).2 ∧
     (reactExecute ⟨some "hello", some "out.tsx"⟩ (mkREnv "/tmp/rf" 4001 b now)).1 =
      Except.ok b) ∧
    ((reactExecute ⟨some "hello", some "out.tsx"⟩
        { mkREnv "/tmp/rf" 4001 b now with buildErr := some e }).1 = Except.error e ∧
     Event.rmWorkspace "/tmp/rf" ∉ (reactExecute ⟨some "hello", some "out.tsx"⟩
        { mkREnv "/tmp/rf" 4001 b now with buildErr := some e }).2 ∧
     Event.serverStop ∉ (reactExecute ⟨some "hello", some "out.tsx"⟩
        { mkREnv "/tmp/rf" 4001 b now with buildErr := some e }).2) ∧
    ((reactExecute ⟨some "hello", some "out.tsx"⟩
        { mkREnv "/tmp/rf" 4001 b now with serverStartErr := some e }).1 = Except.error e ∧
     Event.rmWorkspace "/tmp/rf" ∉ (reactExecute ⟨some "hello", some "out.tsx"⟩
        { mkREnv "/tmp/rf" 4001 b now with serverStartErr := some e }).2 ∧
     Event.serverStop ∉ (reactExecute ⟨some "hello", some "out.tsx"⟩
        { mkREnv "/tmp/rf" 4001 b now with serverStartErr := some e }).2) ∧
    ((reactExecute ⟨some "hello", some "out.tsx"⟩
        { mkREnv "/tmp/rf" 4001 b now with openErr := some e }).1 = Except.error e ∧
     Event.rmWorkspace "/tmp/rf" ∉ (reactExecute ⟨some "hello", some "out.tsx"⟩
        { mkREnv "/tmp/rf" 4001 b now with openErr := some e }).2 ∧
     Event.serverStop ∉ (reactExecute ⟨some "hello", some "out.tsx"⟩
        { mkREnv "/tmp/rf" 4001 b now with openErr := some e }).2) ∧
    ((reactExecute ⟨some "hello", some "out.tsx"⟩
        { mkREnv "/tmp/rf" 4001 b now with persistErr := some e }).1 = Except.error e ∧
     Event.rmWorkspace "/tmp/rf" ∉ (reactExecute ⟨some "hello", some "out.tsx"⟩
        { mkREnv "/tmp/rf" 4001 b now with persistErr := some e }).2 ∧
     Event.serverStop ∉ (reactExecute ⟨some "hello", some "out.tsx"⟩
        { mkREnv "/tmp/rf" 4001 b now with persistErr := some e }).2) := by
  have hv : ¬(fp = "" ∨ c = "") := by simp [hfp, hc]
  refine ⟨⟨?_, ?_, ?_⟩, ⟨?_, ?_, ?_⟩, ⟨?_, ?_, ?_⟩, ⟨?_, ?_, ?_⟩, ⟨?_, ?_, ?_⟩,
    ⟨?_, ?_, ?_⟩, ⟨?_, ?_, ?_⟩, ⟨?_, ?_, ?_⟩, ⟨?_, ?_, ?_⟩⟩ <;>
  first
  | (simp only [ffExecute, mkEnv, Option.getD, if_neg hv]
     all_goals (by_cases hct : ct = "text/html" <;> by_cases hacc : truthy b.accepted <;>
       simp [ffFinish, ffCleanup, hct, hacc]))
  | (simp only [reactExecute, mkREnv, Option.getD]
     all_goals (by_cases hst : b.status = some "accept" <;> simp [hst]))

/-- C5 counterexample: in react-feedback the workspace `fs.rm` is not
wrapped in try/catch: an rm failure occurring after the rejected artifact
was persisted propagates to the caller and replaces the session's primary
result with the cleanup error. -/
theorem c5_react_rm_failure_propagates :
    (reactExecute ⟨some "hello", some "out.tsx"⟩
        { mkREnv "/tmp/rf" 4001 ⟨JsValue.bool true, some "meh", none⟩ ⟨2026, 1, 2, 3, 4, 5, 0⟩ with
            rmErr := some "EACCES" }).1 = Except.error "EACCES" ∧
    Event.csWrite "out.rejected20260102-03:04.tsx" "hello" ∈
      (reactExecute ⟨some "hello", some "out.tsx"⟩
        { mkREnv "/tmp/rf" 4001 ⟨JsValue.bool true, some "meh", none⟩ ⟨2026, 1, 2, 3, 4, 5, 0⟩ with
            rmErr := some "EACCES" }).2 := by
  refine ⟨rfl, by decide⟩

/-- C5 (amended): in getFileFeedback a workspace-deletion failure during
cleanup is logged via `errorLine` and never propagated — the session result
is identical to the failure-free run and the server is still stopped;
in react-feedback the same rm failure propagates to the caller. -/
theorem c5_cleanup_error_policy (fp c ct tmp e er : String) (port : Nat) (b : SubmitBody)
    (now : DateTime) (mp : String → String) (hfp : fp ≠ "") (hc : c ≠ "") :
    (ffExecute ⟨some fp, some c, ct⟩ { mkEnv tmp port b now mp with rmErr := some e }).1 =
      (ffExecute ⟨some fp, some c, ct⟩ (mkEnv tmp port b now mp)).1 ∧
    Event.errorLine ("[feedback/getFileFeedback] Error cleaning up temporary directory " ++ tmp) ∈
      (ffExecute ⟨some fp, some c, ct⟩ { mkEnv tmp port b now mp with rmErr := some e }).2 ∧
    Event.serverStop ∈
      (ffExecute ⟨some fp, some c, ct⟩ { mkEnv tmp port b now mp with rmErr := some e }).2 ∧
    (reactExecute ⟨some "hello", some "out.tsx"⟩
        { mkREnv "/tmp/rf" 4001 b now with rmErr := some er }).1 = Except.error er := by
  have hv : ¬(fp = "" ∨ c = "") := by simp [hfp, hc]
  refine ⟨?_, ?_, ?_, rfl⟩ <;>
  · simp only [ffExecute, mkEnv, Option.getD, if_neg hv]
    by_cases hct : ct = "text/html" <;> by_cases hacc : truthy b.accepted <;>
      simp [ffFinish, ffCleanup, hct, hacc]

/-- C7 counterexample: if the open-in-browser collaborator throws when
invoked, the session FAILS in both tools: `execute` re-raises the error, no
decision is awaited and nothing is persisted — contradicting the claim that
a throwing opener does not fail the session. -/
theorem c7_open_throw_fails_session :
    (ffExecute ⟨some "out.txt", some "hello", "text/plain"⟩
        { mkEnv "/tmp/ff" 4000 ⟨JsValue.bool true, none, none⟩ ⟨2026, 1, 2, 3, 4, 5, 0⟩ id with
            openErr := some "spawn xdg-open ENOENT" }).1 =
      Except.error "spawn xdg-open ENOENT" ∧
    (reactExecute ⟨some "hello", some "out.tsx"⟩
        { mkREnv "/tmp/rf" 4001 ⟨JsValue.bool true, none, none⟩ ⟨2026, 1, 2, 3, 4, 5, 0⟩ with
            openErr := some "spawn xdg-open ENOENT" }).1 =
      Except.error "spawn xdg-open ENOENT" ∧
    (ffExecute ⟨some "out.txt", some "hello", "text/plain"⟩
        { mkEnv "/tmp/ff" 4000 ⟨JsValue.bool true, none, none⟩ ⟨2026, 1, 2, 3, 4, 5, 0⟩ id with
            openErr := some "spawn xdg-open ENOENT" }).2.filter isCsWrite = [] := by
  refine ⟨rfl, rfl, by decide⟩

/-- C7 (amended): if the open-in-browser collaborator is ABSENT,
getFileFeedback logs the preview URL instead, never emits an `openBrowser`
effect, and the session reaches the decision and resolves with exactly the
same result as when `open` is available; but if the collaborator THROWS, the
error propagates and the session fails. -/
theorem c7_browser_launch (fp c ct tmp e : String) (port : Nat) (b : SubmitBody)
    (now : DateTime) (mp : String → String) (hfp : fp ≠ "") (hc : c ≠ "") :
    (ffExecute ⟨some fp, some c, ct⟩ { mkEnv tmp port b now mp with openAvailable := false }).1 =
      (ffExecute ⟨some fp, some c, ct⟩ (mkEnv tmp port b now mp)).1 ∧
    (∃ r, (ffExecute ⟨some fp, some c, ct⟩
        { mkEnv tmp port b now mp with openAvailable := false }).1 = Except.ok r) ∧
    Event.infoLine ("[feedback/getFileFeedback] File review UI available at: " ++
        ("http://localhost:" ++ toString port ++ "/index.html") ++
        " (open command mocked/unavailable)") ∈
      (ffExecute ⟨some fp, some c, ct⟩ { mkEnv tmp port b now mp with openAvailable := false }).2 ∧
    (∀ u, Event.openBrowser u ∉ (ffExecute ⟨some fp, some c, ct⟩
        { mkEnv tmp port b now mp with openAvailable := false }).2) ∧
    (ffExecute ⟨some fp, some c, ct⟩ { mkEnv tmp port b now mp with openErr := some e }).1 =
      Except.error e := by
  have hv : ¬(fp = "" ∨ c = "") := by simp [hfp, hc]
  refine ⟨?_, ?_, ?_, ?_, ?_⟩ <;>
  first
  | (intro u
     simp only [ffExecute, mkEnv, Option.getD, if_neg hv]
     by_cases hct : ct = "text/html" <;> by_cases hacc : truthy b.accepted <;>
       simp [ffFinish, ffCleanup, hct, hacc])
  | (simp only [ffExecute, mkEnv, Option.getD, if_neg hv]
     by_cases hct : ct = "text/html" <;> by_cases hacc : truthy b.accepted <;>
       simp [ffFinish, ffCleanup, hct, hacc])

set_option maxRecDepth 30000 in
/-- C6: for `application/json`, `text/plain`, and any unrecognized content
kind, the rendered document contains the artifact inside the preformatted
block escaped by `escapeHTML`; the five characters & < > " ' map to
`&amp; &lt; &gt; &quot; &#39;`; an unrecognized kind is displayed with
effective kind `text/plain`; and for kind `application/json` with artifact
`{"a":"<b>"}` the output contains `&lt;b&gt;` and no literal `<b>`. -/
theorem c6_render (mp : String → String) (s k : String)
    (h1 : k ≠ "text/markdown") (h2 : k ≠ "text/x-markdown") (h3 : k ≠ "text/html") :
    containsStr (preDiv (escapeHTML s)) (genFileViewHTML mp s k none) = true ∧
    (k ≠ "application/json" →
      genFileViewHTML mp s k none =
        ffTplA ++ "text/plain" ++ ffTplB ++ preDiv (escapeHTML s) ++ ffTplC) ∧
    escapeHTML (String.mk ['&', '<', '>', Char.ofNat 34, Char.ofNat 39]) =
      "&amp;&lt;&gt;&quot;&#39;" ∧
    containsStr "&lt;b&gt;" (genFileViewHTML id "\x7b\"a\":\"<b>\"\x7d" "application/json" none) =
      true ∧
    containsStr "<b>" (genFileViewHTML id "\x7b\"a\":\"<b>\"\x7d" "application/json" none) =
      false := by
  have hcond1 : ¬(k = "text/markdown" ∨ k = "text/x-markdown") := by simp [h1, h2]
  refine ⟨?_, ?_, rfl, by decide, by decide⟩
  · simp only [genFileViewHTML, if_neg hcond1, if_neg h3]
    by_cases hk : k = "application/json" <;> simp only [if_pos, hk, if_neg] <;>
      exact containsStr_mid _ _ _
  · intro hjson
    simp only [genFileViewHTML, if_neg hcond1, if_neg h3, if_neg hjson]

/-- C2 counterexample: two DISTINCT instants differing only in milliseconds
yield the SAME rejection path in getFileFeedback (the `yyyyMMdd-HHmmss`
timestamp drops sub-second precision), so "two rejections at different
instants persist to distinct paths" is false as stated; moreover
react-feedback derives a different shape altogether: `.rejected` plus a
minute-granularity `YYYYMMDD-HH:mm` timestamp inserted at the FIRST dot,
not immediately before the final extension. -/
theorem c2_subsecond_collision :
    (⟨2026, 1, 2, 3, 4, 5, 0⟩ : DateTime) ≠ ⟨2026, 1, 2, 3, 4, 5, 500⟩ ∧
    rejectName "docs/x.md" (fmtFile ⟨2026, 1, 2, 3, 4, 5, 0⟩) =
      rejectName "docs/x.md" (fmtFile ⟨2026, 1, 2, 3, 4, 5, 500⟩) ∧
    rejectReact "a.b.tsx" (fmtReact ⟨2026, 1, 2, 3, 4, 5, 0⟩) = "a.rejected20260102-03:04.b.tsx" ∧
    rejectReact "a.b.tsx" (fmtReact ⟨2026, 1, 2, 3, 4, 5, 0⟩) ≠
      rejectName "a.b.tsx" (fmtFile ⟨2026, 1, 2, 3, 4, 5, 0⟩) := by
  refine ⟨by decide, by decide, by decide, by decide⟩

/-- C2 (amended): in getFileFeedback, for a target path with a final
extension the rejection path is `base ++ ".rejected" ++ ts ++ ext` with
`ts` the 15-character `yyyyMMdd-HHmmss` timestamp, and two rejections whose
clock readings differ at second granularity (in any of year..second)
persist to distinct paths. -/
theorem c2_rejection_naming (fp b e : String) (t1 t2 : DateTime)
    (h1 : t1.Valid) (h2 : t2.Valid) (hsplit : splitExtS fp = some (b, e)) :
    rejectName fp (fmtFile t1) = b ++ ".rejected" ++ fmtFile t1 ++ e ∧
    (fmtFile t1).length = 15 ∧
    (t1.secKey ≠ t2.secKey →
      rejectName fp (fmtFile t1) ≠ rejectName fp (fmtFile t2)) := by
  refine ⟨rejectName_eq _ hsplit, fmtFileL_length t1, ?_⟩
  intro hne heq
  rw [rejectName_eq _ hsplit, rejectName_eq _ hsplit] at heq
  apply hne
  apply fmtFileL_inj h1 h2
  have hd := congrArg String.data heq
  simp only [str_data_append, List.append_assoc, fmtFile, data_mk] at hd
  have hd1 := List.append_cancel_left hd
  have hd2 := List.append_cancel_left hd1
  exact (List.append_inj hd2 (by rw [fmtFileL_length, fmtFileL_length])).1

/-- Witness for C1 at a concrete accepted session. -/
theorem c1_accept_roundtrip_witness :
    ("out.txt" : String) ≠ "" ∧ ("hello" : String) ≠ "" ∧
    truthy (SubmitBody.mk (JsValue.bool true) (some "ok") none).accepted = true ∧
    (ffExecute ⟨some "out.txt", some "hello", "text/plain"⟩
        (mkEnv "/tmp/ff" 4000 ⟨JsValue.bool true, some "ok", none⟩ ⟨2026, 1, 2, 3, 4, 5, 0⟩ id)).1 =
      Except.ok ⟨FFStatus.accepted, some "ok", some "out.txt", none⟩ :=
  ⟨by decide, by decide, rfl,
    (c1_accept_roundtrip "out.txt" "hello" "text/plain" "/tmp/ff" 4000
      ⟨JsValue.bool true, some "ok", none⟩ ⟨2026, 1, 2, 3, 4, 5, 0⟩ id
      (by decide) (by decide) rfl).1.1⟩

/-- Witness for C2 (amended) at concrete instants one second apart. -/
theorem c2_rejection_naming_witness :
    (⟨2026, 1, 2, 3, 4, 5, 0⟩ : DateTime).Valid ∧ (⟨2026, 1, 2, 3, 4, 6, 0⟩ : DateTime).Valid ∧
    splitExtS "docs/x.md" = some ("docs/x", ".md") ∧
    DateTime.secKey ⟨2026, 1, 2, 3, 4, 5, 0⟩ ≠ DateTime.secKey ⟨2026, 1, 2, 3, 4, 6, 0⟩ ∧
    rejectName "docs/x.md" (fmtFile ⟨2026, 1, 2, 3, 4, 5, 0⟩) ≠
      rejectName "docs/x.md" (fmtFile ⟨2026, 1, 2, 3, 4, 6, 0⟩) :=
  ⟨by decide, by decide, by decide, by decide,
    (c2_rejection_naming "docs/x.md" "docs/x" ".md" ⟨2026, 1, 2, 3, 4, 5, 0⟩
      ⟨2026, 1, 2, 3, 4, 6, 0⟩ (by decide) (by decide) (by decide)).2.2 (by decide)⟩

/-- Witness for C3 (amended) at a concrete session, persistence error, and
bundler error. -/
theorem c3_cleanup_policy_witness :
    ("out.txt" : String) ≠ "" ∧ ("hello" : String) ≠ "" ∧
    Event.serverStop ∈ (ffExecute ⟨some "out.txt", some "hello", "text/plain"⟩
      (mkEnv "/tmp/f" 4000 ⟨JsValue.null, none, none⟩ ⟨2026, 1, 2, 3, 4, 5, 0⟩ id)).2 ∧
    (ffExecute ⟨some "out.txt", some "hello", "text/plain"⟩
      { mkEnv "/tmp/f" 4000 ⟨JsValue.null, none, none⟩ ⟨2026, 1, 2, 3, 4, 5, 0⟩ id with
          persistErr := some "boom" }).1 = Except.error "boom" ∧
    (reactExecute ⟨some "hello", some "out.tsx"⟩
      { mkREnv "/tmp/rf" 4001 ⟨JsValue.null, none, none⟩ ⟨2026, 1, 2, 3, 4, 5, 0⟩ with
          buildErr := some "boom" }).1 = Except.error "boom" :=
  ⟨by decide, by decide,
    (c3_cleanup_policy "out.txt" "hello" "text/plain" "/tmp/f" "boom" 4000
        ⟨JsValue.null, none, none⟩ ⟨2026, 1, 2, 3, 4, 5, 0⟩ id (by decide) (by decide)).1.2.1,
    (c3_cleanup_policy "out.txt" "hello" "text/plain" "/tmp/f" "boom" 4000
        ⟨JsValue.null, none, none⟩ ⟨2026, 1, 2, 3, 4, 5, 0⟩ id (by decide) (by decide)).2.1.1,
    (c3_cleanup_policy "out.txt" "hello" "text/plain" "/tmp/f" "boom" 4000
        ⟨JsValue.null, none, none⟩ ⟨2026, 1, 2, 3, 4, 5, 0⟩ id
        (by decide) (by decide)).2.2.2.2.2.1.1⟩

/-- Witness for C5 (amended) at a concrete session and rm error. -/
theorem c5_cleanup_error_policy_witness :
    ("a.txt" : String) ≠ "" ∧ ("body" : String) ≠ "" ∧
    (ffExecute ⟨some "a.txt", some "body", "text/plain"⟩
        { mkEnv "/w" 4000 ⟨JsValue.bool true, none, none⟩ ⟨2026, 1, 2, 3, 4, 5, 0⟩ id with
            rmErr := some "EPERM" }).1 =
      (ffExecute ⟨some "a.txt", some "body", "text/plain"⟩
        (mkEnv "/w" 4000 ⟨JsValue.bool true, none, none⟩ ⟨2026, 1, 2, 3, 4, 5, 0⟩ id)).1 :=
  ⟨by decide, by decide,
    (c5_cleanup_error_policy "a.txt" "body" "text/plain" "/w" "EPERM" "EIO" 4000
      ⟨JsValue.bool true, none, none⟩ ⟨2026, 1, 2, 3, 4, 5, 0⟩ id (by decide) (by decide)).1⟩

/-- Witness for C6 at the unrecognized kind `text/rtf`. -/
theorem c6_render_witness :
    ("text/rtf" : String) ≠ "text/markdown" ∧ ("text/rtf" : String) ≠ "text/x-markdown" ∧
    ("text/rtf" : String) ≠ "text/html" ∧ ("text/rtf" : String) ≠ "application/json" ∧
    genFileViewHTML id "x" "text/rtf" none =
      ffTplA ++ "text/plain" ++ ffTplB ++ preDiv (escapeHTML "x") ++ ffTplC :=
  ⟨by decide, by decide, by decide, by decide,
    (c6_render id "x" "text/rtf" (by decide) (by decide) (by decide)).2.1 (by decide)⟩

/-- Witness for C7 (amended) at a concrete session with `open` absent. -/
theorem c7_browser_launch_witness :
    ("f.txt" : String) ≠ "" ∧ ("data" : String) ≠ "" ∧
    (ffExecute ⟨some "f.txt", some "data", "text/plain"⟩
        { mkEnv "/w7" 4007 ⟨JsValue.bool false, none, none⟩ ⟨2026, 1, 2, 3, 4, 5, 0⟩ id with
            openAvailable := false }).1 =
      (ffExecute ⟨some "f.txt", some "data", "text/plain"⟩
        (mkEnv "/w7" 4007 ⟨JsValue.bool false, none, none⟩ ⟨2026, 1, 2, 3, 4, 5, 0⟩ id)).1 :=
  ⟨by decide, by decide,
    (c7_browser_launch "f.txt" "data" "text/plain" "/w7" "X" 4007
      ⟨JsValue.bool false, none, none⟩ ⟨2026, 1, 2, 3, 4, 5, 0⟩ id (by decide) (by decide)).1⟩

/-- Witness for C8 (amended) at concrete invalid requests. -/
theorem c8_validation_witness :
    ((⟨none, some "body", "text/plain"⟩ : FFParams).filePath.getD "" = "" ∨
      (⟨none, some "body", "text/plain"⟩ : FFParams).content.getD "" = "") ∧
    (⟨some "", none⟩ : RFParams).code.getD "" = "" ∧
    ffExecute ⟨none, some "body", "text/plain"⟩
      (mkEnv "/w8" 4008 ⟨JsValue.null, none, none⟩ ⟨2026, 1, 2, 3, 4, 5, 0⟩ id) =
      (Except.error "[feedback/getFileFeedback] filePath and content are required parameters for getFileFeedback.", []) ∧
    reactExecute ⟨some "", none⟩
      (mkREnv "/w8" 4008 ⟨JsValue.null, none, none⟩ ⟨2026, 1, 2, 3, 4, 5, 0⟩) =
      (Except.error "[feedback/react-feedback] code is required parameter for react-feedback.", []) :=
  ⟨by decide, by decide,
    (c8_validation ⟨none, some "body", "text/plain"⟩
      (mkEnv "/w8" 4008 ⟨JsValue.null, none, none⟩ ⟨2026, 1, 2, 3, 4, 5, 0⟩ id)
      ⟨some "", none⟩ (mkREnv "/w8" 4008 ⟨JsValue.null, none, none⟩ ⟨2026, 1, 2, 3, 4, 5, 0⟩)
      (by decide) (by decide)).1,
    (c8_validation ⟨none, some "body", "text/plain"⟩
      (mkEnv "/w8" 4008 ⟨JsValue.null, none, none⟩ ⟨2026, 1, 2, 3, 4, 5, 0⟩ id)
      ⟨some "", none⟩ (mkREnv "/w8" 4008 ⟨JsValue.null, none, none⟩ ⟨2026, 1, 2, 3, 4, 5, 0⟩)
      (by decide) (by decide)).2.1⟩

/-- Witness for C9 at a concrete rejected session. -/
theorem c9_result_paths_witness :
    ("docs/x.md" : String) ≠ "" ∧ ("body" : String) ≠ "" ∧ truthy JsValue.null = false ∧
    (ffExecute ⟨some "docs/x.md", some "body", "text/plain"⟩
        (mkEnv "/w9" 4009 ⟨JsValue.null, some "needs work", none⟩
          ⟨2026, 1, 2, 3, 4, 5, 0⟩ id)).1 =
      Except.ok ⟨FFStatus.rejected, some "needs work", none, some "docs/x.md"⟩ :=
  ⟨by decide, by decide, rfl,
    ((c9_result_paths "docs/x.md" "body" "text/plain" "/w9" 4009
      ⟨JsValue.null, some "needs work", none⟩ ⟨2026, 1, 2, 3, 4, 5, 0⟩ id
      (by decide) (by decide)).1 rfl).1⟩

/-- Witness for C10 at a body with `accepted` missing. -/
theorem c10_endpoint_no_validation_witness :
    truthy JsValue.undef = false ∧
    (ffSubmitResult (some ⟨JsValue.bool true, none, none⟩) ⟨JsValue.undef, none, none⟩).1 =
      (200, "ok") ∧
    (ffExecute ⟨some "out.txt", some "hello", "text/plain"⟩
        (mkEnv "/wa" 4010 ⟨JsValue.undef, none, none⟩ ⟨2026, 1, 2, 3, 4, 5, 0⟩ id)).1 =
      Except.ok ⟨FFStatus.rejected, none, none, some "out.txt"⟩ :=
  ⟨rfl,
    (c10_endpoint_no_validation (some ⟨JsValue.bool true, none, none⟩)
      ⟨JsValue.undef, none, none⟩ "/wa" 4010 ⟨2026, 1, 2, 3, 4, 5, 0⟩ id).1,
    (c10_endpoint_no_validation none ⟨JsValue.undef, none, none⟩ "/wa" 4010
      ⟨2026, 1, 2, 3, 4, 5, 0⟩ id).2.2.2 rfl⟩
